import Mathlib

/-!
Verification development for the foxtail rendering runtime
(src/foxtail/src/rendering/). Each Rust module is shallowly embedded:
GPU-side state is passed explicitly, a panic is modelled as the
`panicked` outcome (carrying the GPU state at the moment of the panic,
since GL-side mutations already issued are not rolled back by
unwinding), and fallible calls return `Except`.
-/

/-- The error type of src/foxtail/src/rendering/mod.rs (`enum RenderError`). -/
inductive RenderError where
  | generic
deriving DecidableEq, Repr

/-- Outcome of an operation that can panic. `panicked` carries the GPU
state as it was when the panic fired. -/
inductive PanicOr (A : Type) where
  | ok (val : A)
  | panicked (val : A)
deriving DecidableEq, Repr

/-! ### FixedSizeBuffer (src/foxtail/src/rendering/buffer.rs)

The buffer's GPU storage is a byte list. An element of type `T` is
represented by its byte serialization, a `List Nat` of length `tSize`
(`tSize` standing for `std::mem::size_of::<T>()`). -/

/-- GPU-side storage of one `FixedSizeBuffer`: `size` is the allocated
byte length (`count * size_of::<T>()`), `content` the byte contents. -/
structure FixedSizeBuffer where
  size : Nat
  content : List Nat
deriving DecidableEq, Repr

/-- Semantics of `gl.buffer_sub_data_u8_slice`: overwrite `data.length`
bytes of `content` starting at byte `offset`. -/
def bufferSubData (content : List Nat) (offset : Nat) (data : List Nat) : List Nat :=
  content.take offset ++ data ++ content.drop (offset + data.length)

/-- `FixedSizeBuffer::new_from_gl`: allocates `size_of::<T>() * count`
bytes and zeroes them (`alloc_buffer` uploads `vec![0u8; self.size]`). -/
def FixedSizeBuffer.new (tSize count : Nat) : FixedSizeBuffer :=
  { size := tSize * count, content := List.replicate (tSize * count) 0 }

/-- `FixedSizeBuffer::write(offset, data)`: panics when
`offset*t_size + data.len()*t_size > self.size`, before any GL call;
otherwise uploads the serialized bytes of `data` at byte offset
`offset * t_size`. -/
def FixedSizeBuffer.write (tSize : Nat) (b : FixedSizeBuffer) (offset : Nat)
    (data : List (List Nat)) : PanicOr FixedSizeBuffer :=
  let offsetRaw := offset * tSize
  if offsetRaw + data.length * tSize > b.size then
    PanicOr.panicked b
  else
    PanicOr.ok { b with content := bufferSubData b.content offsetRaw data.flatten }

/-- Loop body of `FixedSizeBuffer::write_slice`: each `(offset, data)`
pair is bounds-checked individually (`offset*t_size + t_size > size`
panics) and uploaded in iteration order. -/
def writeSliceGo (tSize : Nat) (b : FixedSizeBuffer) :
    List (Nat × List Nat) → PanicOr FixedSizeBuffer
  | [] => PanicOr.ok b
  | (offset, data) :: rest =>
    let offsetRaw := offset * tSize
    if offsetRaw + tSize > b.size then
      PanicOr.panicked b
    else
      writeSliceGo tSize { b with content := bufferSubData b.content offsetRaw data } rest

/-- `FixedSizeBuffer::write_slice(writes)`. -/
def FixedSizeBuffer.write_slice (tSize : Nat) (b : FixedSizeBuffer)
    (writes : List (Nat × List Nat)) : PanicOr FixedSizeBuffer :=
  writeSliceGo tSize b writes

/-- The buffer contents after applying a batch of single-element writes
in order, with no bounds checking. -/
def applyWrites (tSize : Nat) (b : FixedSizeBuffer) (ws : List (Nat × List Nat)) :
    FixedSizeBuffer :=
  ws.foldl (fun b p => { b with content := bufferSubData b.content (p.1 * tSize) p.2 }) b

/-- Read `len` bytes back from byte offset `offset`. -/
def readBytes (c : List Nat) (offset len : Nat) : List Nat :=
  (c.drop offset).take len

lemma length_join_of_forall {tSize : Nat} {data : List (List Nat)}
    (h : ∀ e ∈ data, e.length = tSize) : data.flatten.length = data.length * tSize := by
  induction data with
  | nil => simp
  | cons a l ih =>
    have ha : a.length = tSize := h a (by simp)
    have hl : ∀ e ∈ l, e.length = tSize := fun e he => h e (by simp [he])
    simp only [List.flatten_cons, List.length_append, List.length_cons, ih hl, ha]
    ring

lemma bufferSubData_drop_eq (c d : List Nat) (o : Nat) (h : o ≤ c.length) :
    (bufferSubData c o d).drop o = d ++ c.drop (o + d.length) := by
  unfold bufferSubData
  rw [List.append_assoc]
  have hlen : (c.take o).length = o := by
    rw [List.length_take]; omega
  exact List.drop_left' hlen

lemma bufferSubData_take_eq (c d : List Nat) (o : Nat) (h : o ≤ c.length) :
    (bufferSubData c o d).take o = c.take o := by
  unfold bufferSubData
  rw [List.append_assoc]
  have hlen : (c.take o).length = o := by
    rw [List.length_take]; omega
  exact List.take_left' hlen

lemma bufferSubData_drop_suffix (c d : List Nat) (o : Nat) (h : o ≤ c.length) :
    (bufferSubData c o d).drop (o + d.length) = c.drop (o + d.length) := by
  unfold bufferSubData
  have hlen : (c.take o ++ d).length = o + d.length := by
    rw [List.length_append, List.length_take]; omega
  exact List.drop_left' hlen

lemma bufferSubData_length (c d : List Nat) (o : Nat) (h : o + d.length ≤ c.length) :
    (bufferSubData c o d).length = c.length := by
  unfold bufferSubData
  rw [List.length_append, List.length_append, List.length_take, List.length_drop]
  omega

/-- C1: for a buffer of byte size S, `write(offset, data)` with
`offset*tSize + data.len*tSize <= S` succeeds (no panic) and stores the
bytes of `data` at byte offset `offset*tSize`, leaving all other bytes
unchanged; when the bound is violated it panics having performed no
mutation of the buffer contents. -/
theorem c1_buffer_write_bounds (tSize : Nat) (b : FixedSizeBuffer) (offset : Nat)
    (data : List (List Nat))
    (hlen : b.content.length = b.size)
    (hdata : ∀ e ∈ data, e.length = tSize) :
    (offset * tSize + data.length * tSize ≤ b.size →
      ∃ b2, FixedSizeBuffer.write tSize b offset data = PanicOr.ok b2 ∧
        b2.size = b.size ∧
        b2.content.length = b.size ∧
        readBytes b2.content (offset * tSize) (data.length * tSize) = data.flatten ∧
        b2.content.take (offset * tSize) = b.content.take (offset * tSize) ∧
        b2.content.drop (offset * tSize + data.length * tSize) =
          b.content.drop (offset * tSize + data.length * tSize)) ∧
    (b.size < offset * tSize + data.length * tSize →
      FixedSizeBuffer.write tSize b offset data = PanicOr.panicked b) := by
  have hjoin : data.flatten.length = data.length * tSize := length_join_of_forall hdata
  constructor
  · intro hle
    have hguard : ¬ (offset * tSize + data.length * tSize > b.size) := by omega
    refine ⟨{ b with content := bufferSubData b.content (offset * tSize) data.flatten }, ?_, rfl, ?_, ?_, ?_, ?_⟩
    · unfold FixedSizeBuffer.write
      simp only [hguard, if_false]
    · have : offset * tSize + data.flatten.length ≤ b.content.length := by omega
      simpa [hlen] using bufferSubData_length b.content data.flatten (offset * tSize) this
    · unfold readBytes
      have ho : offset * tSize ≤ b.content.length := by omega
      rw [bufferSubData_drop_eq b.content data.flatten (offset * tSize) ho]
      exact List.take_left' hjoin
    · exact bufferSubData_take_eq b.content data.flatten (offset * tSize) (by omega)
    · rw [← hjoin]
      exact bufferSubData_drop_suffix b.content data.flatten (offset * tSize) (by omega)
  · intro hgt
    unfold FixedSizeBuffer.write
    simp only [gt_iff_lt, hgt, if_true]

/-- Witness for C1 at a concrete buffer: a 2-element buffer of 2-byte
elements accepts an in-bounds write at offset 1 and rejects an
out-of-bounds write at offset 2. -/
theorem c1_buffer_write_bounds_witness :
    (∃ b2, FixedSizeBuffer.write 2 (FixedSizeBuffer.new 2 2) 1 [[7, 8]] = PanicOr.ok b2 ∧
        b2.size = (FixedSizeBuffer.new 2 2).size ∧
        b2.content.length = (FixedSizeBuffer.new 2 2).size ∧
        readBytes b2.content (1 * 2) (1 * 2) = [7, 8] ∧
        b2.content.take (1 * 2) = (FixedSizeBuffer.new 2 2).content.take (1 * 2) ∧
        b2.content.drop (1 * 2 + 1 * 2) = (FixedSizeBuffer.new 2 2).content.drop (1 * 2 + 1 * 2)) ∧
    FixedSizeBuffer.write 2 (FixedSizeBuffer.new 2 2) 2 [[7, 8]] = PanicOr.panicked (FixedSizeBuffer.new 2 2) := by
  constructor
  · have h := (c1_buffer_write_bounds 2 (FixedSizeBuffer.new 2 2) 1 [[7, 8]]
      (by decide) (by decide)).1 (by decide)
    simpa using h
  · exact (c1_buffer_write_bounds 2 (FixedSizeBuffer.new 2 2) 2 [[7, 8]]
      (by decide) (by decide)).2 (by decide)

/-- C10: write_slice checks each element individually in iteration
order; at the first violating element it panics with all earlier
in-bounds writes of the batch already applied to the buffer, so a
failing write_slice can leave the buffer partially mutated. -/
theorem c10_write_slice_partial (tSize : Nat) :
    ∀ (pre : List (Nat × List Nat)) (b : FixedSizeBuffer) (off : Nat) (e : List Nat)
      (rest : List (Nat × List Nat)),
    (∀ p ∈ pre, p.1 * tSize + tSize ≤ b.size) →
    b.size < off * tSize + tSize →
    FixedSizeBuffer.write_slice tSize b (pre ++ (off, e) :: rest) =
      PanicOr.panicked (applyWrites tSize b pre) := by
  intro pre
  induction pre with
  | nil =>
    intro b off e rest _ hoff
    unfold FixedSizeBuffer.write_slice writeSliceGo
    simp only [List.nil_append, applyWrites, List.foldl_nil]
    rw [if_pos (by omega)]
  | cons p ps ih =>
    intro b off e rest hpre hoff
    have hp : p.1 * tSize + tSize ≤ b.size := hpre p (by simp)
    have hps : ∀ q ∈ ps, q.1 * tSize + tSize ≤ b.size := fun q hq => hpre q (by simp [hq])
    unfold FixedSizeBuffer.write_slice writeSliceGo
    simp only [List.cons_append]
    rw [if_neg (by omega)]
    have := ih { b with content := bufferSubData b.content (p.1 * tSize) p.2 } off e rest
      (by simpa using hps) (by simpa using hoff)
    unfold FixedSizeBuffer.write_slice at this
    have happly : applyWrites tSize b (p :: ps) =
        applyWrites tSize { b with content := bufferSubData b.content (p.1 * tSize) p.2 } ps := rfl
    rw [happly]
    exact this

/-- Witness for C10: in a 2-byte buffer of 1-byte-elements, the batch
[(0,[5]),(7,[9])] panics at offset 7 with the in-bounds write at offset
0 already applied, leaving the buffer partially mutated. -/
theorem c10_write_slice_partial_witness :
    FixedSizeBuffer.write_slice 1 (FixedSizeBuffer.new 1 2) [(0, [5]), (7, [9])] =
      PanicOr.panicked (applyWrites 1 (FixedSizeBuffer.new 1 2) [(0, [5])]) ∧
    applyWrites 1 (FixedSizeBuffer.new 1 2) [(0, [5])] ≠ FixedSizeBuffer.new 1 2 := by
  constructor
  · exact c10_write_slice_partial 1 [(0, [5])] (FixedSizeBuffer.new 1 2) 7 [9] []
      (by decide) (by decide)
  · decide

/-! ### Shared GL binding state and shaders
(src/foxtail/src/rendering/shader.rs, mesh.rs)

`GlState` models the pieces of mutable GL state the binding claims
observe: the program installed by `use_program`, the shared
`shader_bound` atomic flag, and the current vertex-array and 2D-texture
bindings. A closure handed to a bind scope is an arbitrary state
transformer that may fail with a `RenderError` or panic (`none`). -/

structure GlState where
  usedProgram : Option Nat
  shaderBound : Bool
  vaoBound : Option Nat
  texBound : Option Nat
deriving DecidableEq, Repr

/-- A `Shader` owns a native program handle and a reference to the
shared bind flag (the flag lives in `GlState` here). -/
structure Shader where
  program : Nat
deriving DecidableEq, Repr

/-- `Shader::bind`: `use_program(Some(program))` then store `true` into
the shared `shader_bound` flag. -/
def Shader.bind (sh : Shader) (s : GlState) : GlState :=
  { s with usedProgram := some sh.program, shaderBound := true }

/-- `Shader::unbind`: `use_program(None)` then store `false` into the
shared `shader_bound` flag. -/
def Shader.unbind (sh : Shader) (s : GlState) : GlState :=
  { s with usedProgram := none, shaderBound := false }

/-- A closure passed to a bind scope: runs against the GL state, may
return a `RenderError`, or panic (`none`). -/
def RClosure : Type := GlState → Option (Except RenderError Unit × GlState)

/-- `Shader::while_bound(f)`: binds, runs `f`, and on `f`'s success
unbinds; the statement `f(uni)?;` propagates an error of `f` by early
return, before `self.unbind()` is reached. -/
def Shader.while_bound (sh : Shader) (f : RClosure) (s : GlState) :
    Option (Except RenderError Unit × GlState) :=
  match f (sh.bind s) with
  | none => none
  | some (Except.error e, s2) => some (Except.error e, s2)
  | some (Except.ok _, s2) => some (Except.ok (), sh.unbind s2)

/-- A closure that fails immediately, leaving the state untouched. -/
def failClosure : RClosure := fun s => some (Except.error RenderError.generic, s)

/-- A closure that succeeds immediately, leaving the state untouched. -/
def okClosure : RClosure := fun s => some (Except.ok (), s)

/-- A GL state with nothing bound and the shared flag false. -/
def glState0 : GlState :=
  { usedProgram := none, shaderBound := false, vaoBound := none, texBound := none }

/-- A shader handle for concrete instances. -/
def shader0 : Shader := { program := 1 }

/-- C2 counterexample: when the closure returns an error,
while_bound propagates it before reaching unbind, so the shared
bind-state flag is left true, not restored to false. -/
theorem c2_while_bound_counterexample :
    Shader.while_bound shader0 failClosure glState0 =
      some (Except.error RenderError.generic,
        { usedProgram := some 1, shaderBound := true, vaoBound := none, texBound := none }) ∧
    ({ usedProgram := some 1, shaderBound := true, vaoBound := none,
        texBound := none : GlState }).shaderBound ≠ false := by
  constructor
  · rfl
  · decide

/-- C2 amended: while_bound sets the shared flag true before the
closure runs; when the closure succeeds the flag is restored to false,
but when the closure returns an error while_bound propagates it without
unbinding, leaving the state exactly as the closure left it. -/
theorem c2_while_bound_flag (sh : Shader) (f : RClosure) (s : GlState) :
    (sh.bind s).shaderBound = true ∧
    (∀ s2, f (sh.bind s) = some (Except.ok (), s2) →
      Shader.while_bound sh f s = some (Except.ok (), sh.unbind s2) ∧
      (sh.unbind s2).shaderBound = false) ∧
    (∀ e s2, f (sh.bind s) = some (Except.error e, s2) →
      Shader.while_bound sh f s = some (Except.error e, s2)) := by
  refine ⟨rfl, ?_, ?_⟩
  · intro s2 h
    constructor
    · unfold Shader.while_bound
      rw [h]
    · rfl
  · intro e s2 h
    unfold Shader.while_bound
    rw [h]

/-- Witness for C2 amended: at a concrete shader, state and succeeding
closure, while_bound returns Ok with the flag restored to false. -/
theorem c2_while_bound_flag_witness :
    Shader.while_bound shader0 okClosure glState0 =
      some (Except.ok (), Shader.unbind shader0 (Shader.bind shader0 glState0)) ∧
    (Shader.unbind shader0 (Shader.bind shader0 glState0)).shaderBound = false := by
  exact (c2_while_bound_flag shader0 okClosure glState0).2.1
    (Shader.bind shader0 glState0) rfl

/-! ### Mesh (src/foxtail/src/rendering/mesh.rs) -/

/-- A `Mesh` owns a VBO, a VAO, an EBO and the vertex/index counts. -/
structure Mesh where
  vbo : Nat
  vao : Nat
  ebo : Nat
  vertCount : Int
  indexCount : Int
deriving DecidableEq, Repr

/-- `Mesh::draw` (`impl Drawable for Mesh`): panics when the shared
`shader_bound` flag is not true; otherwise binds the VAO, issues
`draw_elements`, unbinds the VAO and returns Ok. -/
def Mesh.draw (m : Mesh) (s : GlState) : Option (Except RenderError Unit × GlState) :=
  if s.shaderBound ≠ true then
    none
  else
    let s1 := { s with vaoBound := some m.vao }
    let s2 := { s1 with vaoBound := none }
    some (Except.ok (), s2)

/-- A mesh handle for concrete instances (the unit quad of
`Mesh::quad`: 4 vertices of 8 floats, 6 indices). -/
def mesh0 : Mesh := { vbo := 2, vao := 3, ebo := 4, vertCount := 4, indexCount := 6 }

/-- C3: drawing a Mesh while the shared bind-state flag is false is a
panic; drawing it inside the while_bound scope of any shader succeeds
with Ok and no panic. -/
theorem c3_mesh_draw_requires_shader (m : Mesh) :
    (∀ s : GlState, s.shaderBound = false → Mesh.draw m s = none) ∧
    (∀ (sh : Shader) (s : GlState),
      Shader.while_bound sh (Mesh.draw m) s =
        some (Except.ok (), sh.unbind { sh.bind s with vaoBound := none })) := by
  constructor
  · intro s hs
    unfold Mesh.draw
    rw [if_pos (by simp [hs])]
  · intro sh s
    unfold Shader.while_bound Mesh.draw
    simp [Shader.bind]

/-- Witness for C3 at the concrete quad mesh: drawing with no shader
bound panics, drawing inside shader0's while_bound scope returns Ok. -/
theorem c3_mesh_draw_requires_shader_witness :
    Mesh.draw mesh0 glState0 = none ∧
    Shader.while_bound shader0 (Mesh.draw mesh0) glState0 =
      some (Except.ok (),
        Shader.unbind shader0 { Shader.bind shader0 glState0 with vaoBound := none }) := by
  exact ⟨(c3_mesh_draw_requires_shader mesh0).1 glState0 rfl,
    (c3_mesh_draw_requires_shader mesh0).2 shader0 glState0⟩

/-! ### ComputeShader (src/foxtail/src/rendering/shader.rs) -/

/-- A `ComputeShader` owns a native program handle and a reference to
the shared bind flag. -/
structure ComputeShader where
  program : Nat
deriving DecidableEq, Repr

/-- `ComputeShader::bind`: `use_program(Some(program))`, flag := true. -/
def ComputeShader.bind (cs : ComputeShader) (s : GlState) : GlState :=
  { s with usedProgram := some cs.program, shaderBound := true }

/-- `ComputeShader::unbind`: `use_program(None)`, flag := false. -/
def ComputeShader.unbind (cs : ComputeShader) (s : GlState) : GlState :=
  { s with usedProgram := none, shaderBound := false }

/-- `ComputeShader::set_uniforms(f)`: bind, run the infallible closure
`f` on the uniform interface, unbind. -/
def ComputeShader.set_uniforms (cs : ComputeShader) (f : GlState → GlState) (s : GlState) :
    GlState :=
  let s1 := cs.bind s
  let s2 := f s1
  cs.unbind s2

/-- C9: set_uniforms unconditionally binds then unbinds, so after it
returns the shared bind-state flag is false whatever it was before;
in particular a flag that was true before the call is clobbered. -/
theorem c9_set_uniforms_clobbers_flag (cs : ComputeShader) (f : GlState → GlState)
    (s : GlState) :
    (cs.bind s).shaderBound = true ∧
    (ComputeShader.set_uniforms cs f s).shaderBound = false := by
  exact ⟨rfl, rfl⟩

/-! ### Framebuffer (src/foxtail/src/rendering/render_pass.rs) -/

/-- A `Framebuffer` owns a native framebuffer object, its color texture
and its depth/stencil renderbuffer, and holds the shared default
fallback shader and an internal full-screen quad mesh. -/
structure Framebuffer where
  fbo : Nat
  tex : Nat
  rbo : Nat
  defaultShader : Shader
  mesh : Mesh
deriving DecidableEq, Repr

/-- `Framebuffer::bind_tex`: binds the color texture to TEXTURE_2D. -/
def Framebuffer.bind_tex (fb : Framebuffer) (s : GlState) : GlState :=
  { s with texBound := some fb.tex }

/-- `Framebuffer::unbind_tex`: unbinds TEXTURE_2D. -/
def Framebuffer.unbind_tex (fb : Framebuffer) (s : GlState) : GlState :=
  { s with texBound := none }

/-- Body shared by the two branches of `Framebuffer::draw`:
`bind_tex(); mesh.draw()?; unbind_tex();` returning Ok. -/
def fbDrawInner (fb : Framebuffer) (s : GlState) : Option (Except RenderError Unit × GlState) :=
  match fb.mesh.draw (fb.bind_tex s) with
  | none => none
  | some (Except.error e, s2) => some (Except.error e, s2)
  | some (Except.ok _, s2) => some (Except.ok (), fb.unbind_tex s2)

/-- `Framebuffer::draw` (`impl Drawable for Framebuffer`): if the
shared flag is true, draws with the already-bound shader; otherwise
wraps the same body in `default_fb_shader.while_bound`. -/
def Framebuffer.draw (fb : Framebuffer) (s : GlState) :
    Option (Except RenderError Unit × GlState) :=
  if s.shaderBound then
    fbDrawInner fb s
  else
    match Shader.while_bound fb.defaultShader (fbDrawInner fb) s with
    | none => none
    | some (Except.error e, s2) => some (Except.error e, s2)
    | some (Except.ok _, s2) => some (Except.ok (), s2)

/-- C5: drawing a Framebuffer while the shared bind-state flag is false
succeeds with Ok (the fallback shader is bound transparently for the
duration of the draw) and leaves the flag false afterwards, equal to
its value before the call. -/
theorem c5_framebuffer_draw_fallback (fb : Framebuffer) (s : GlState)
    (hs : s.shaderBound = false) :
    ∃ s2, Framebuffer.draw fb s = some (Except.ok (), s2) ∧
      s2.shaderBound = false ∧ s2.shaderBound = s.shaderBound := by
  refine ⟨Shader.unbind fb.defaultShader
    (fb.unbind_tex { fb.bind_tex (Shader.bind fb.defaultShader s) with vaoBound := none }),
    ?_, by simp [Shader.unbind], by simp [Shader.unbind, hs]⟩
  unfold Framebuffer.draw
  rw [if_neg (by simp [hs])]
  unfold Shader.while_bound fbDrawInner Mesh.draw
  simp [Shader.bind, Framebuffer.bind_tex]

/-- A concrete framebuffer for witnesses. -/
def framebuffer0 : Framebuffer :=
  { fbo := 5, tex := 6, rbo := 7, defaultShader := shader0, mesh := mesh0 }

/-- Witness for C5: at the concrete framebuffer and the unbound initial
state, draw returns Ok and the flag ends false. -/
theorem c5_framebuffer_draw_fallback_witness :
    ∃ s2, Framebuffer.draw framebuffer0 glState0 = some (Except.ok (), s2) ∧
      s2.shaderBound = false ∧ s2.shaderBound = glState0.shaderBound := by
  exact c5_framebuffer_draw_fallback framebuffer0 glState0 rfl

/-! ### Renderer (src/foxtail/src/rendering/mod.rs)

The Renderer owns the window-sized `PhysicalSize<u32>` and the context
currency flag `is_context_current`. The GL-side state it drives that
the claims observe is the viewport. -/

/-- GL screen state driven by the Renderer: the current viewport
rectangle as set by `gl.viewport(x, y, w, h)`. -/
structure GlScreen where
  viewport : Int × Int × Int × Int
deriving DecidableEq, Repr

/-- The `Renderer` struct fields the claims observe: the stored
`PhysicalSize<u32>` and `is_context_current`. -/
structure Renderer where
  size : Nat × Nat
  isContextCurrent : Bool
deriving DecidableEq, Repr

/-- `Renderer::new(window)`: stores the window's inner size, creates
the context and makes it current (`context.make_current()` runs during
construction and `is_context_current` is initialized to `true`). -/
def Renderer.new (windowSize : Nat × Nat) : Renderer :=
  { size := windowSize, isContextCurrent := true }

/-- `Renderer::gl_make_current`. -/
def Renderer.gl_make_current (r : Renderer) : Renderer :=
  { r with isContextCurrent := true }

/-- `Renderer::gl_make_not_current`. -/
def Renderer.gl_make_not_current (r : Renderer) : Renderer :=
  { r with isContextCurrent := false }

/-- `Renderer::resize(new_size)`: only when both dimensions are
positive, stores the new size and sets the viewport to
`(0, 0, width, height)`; otherwise does nothing. -/
def Renderer.resize (r : Renderer) (g : GlScreen) (newSize : Nat × Nat) :
    Renderer × GlScreen :=
  if 0 < newSize.1 ∧ 0 < newSize.2 then
    ({ r with size := newSize },
     { g with viewport := (0, 0, (newSize.1 : Int), (newSize.2 : Int)) })
  else
    (r, g)

/-- `Renderer::fence`: `gl.memory_barrier(ALL_BARRIER_BITS)`; touches
no Renderer or viewport state. -/
def Renderer.fence (r : Renderer) (g : GlScreen) : Renderer × GlScreen :=
  (r, g)

/-- `Renderer::start_frame`: makes the context current, then clears the
color buffer; always returns Ok. -/
def Renderer.start_frame (r : Renderer) (g : GlScreen) :
    Except RenderError Unit × Renderer × GlScreen :=
  (Except.ok (), r.gl_make_current, g)

/-- `Renderer::end_frame`: swaps buffers, then makes the context not
current; always returns Ok. -/
def Renderer.end_frame (r : Renderer) (g : GlScreen) :
    Except RenderError Unit × Renderer × GlScreen :=
  (Except.ok (), r.gl_make_not_current, g)

/-- C6: the currency flag is a two-state machine: construction leaves
it Current; make_current and start_frame set Current; make_not_current
and end_frame set NotCurrent; the Renderer's remaining operations
(resize, fence) never change it. -/
theorem c6_currency_state_machine (windowSize : Nat × Nat) (r : Renderer) (g : GlScreen)
    (sz : Nat × Nat) :
    (Renderer.new windowSize).isContextCurrent = true ∧
    (Renderer.gl_make_current r).isContextCurrent = true ∧
    (Renderer.gl_make_not_current r).isContextCurrent = false ∧
    (Renderer.start_frame r g).2.1.isContextCurrent = true ∧
    (Renderer.end_frame r g).2.1.isContextCurrent = false ∧
    (Renderer.resize r g sz).1.isContextCurrent = r.isContextCurrent ∧
    (Renderer.fence r g).1.isContextCurrent = r.isContextCurrent := by
  refine ⟨rfl, rfl, rfl, rfl, rfl, ?_, rfl⟩
  unfold Renderer.resize
  by_cases h : 0 < sz.1 ∧ 0 < sz.2
  · rw [if_pos h]
  · rw [if_neg h]

/-- C8: resize with either dimension zero (≤ 0 for the unsigned pixel
size) is a no-op on the stored size and the viewport; with both
dimensions positive it stores the new size and sets the viewport to
`(0, 0, width, height)`. -/
theorem c8_renderer_resize (r : Renderer) (g : GlScreen) (sz : Nat × Nat) :
    ((sz.1 = 0 ∨ sz.2 = 0) → Renderer.resize r g sz = (r, g)) ∧
    (0 < sz.1 → 0 < sz.2 →
      (Renderer.resize r g sz).1.size = sz ∧
      (Renderer.resize r g sz).2.viewport = (0, 0, (sz.1 : Int), (sz.2 : Int))) := by
  constructor
  · intro h
    unfold Renderer.resize
    rw [if_neg (by omega)]
  · intro h1 h2
    unfold Renderer.resize
    rw [if_pos ⟨h1, h2⟩]
    exact ⟨rfl, rfl⟩

/-- Witness for C8: a zero-width resize is ignored while a 7x5 resize
stores the size and sets the viewport. -/
theorem c8_renderer_resize_witness :
    Renderer.resize (Renderer.new (4, 4)) { viewport := (0, 0, 4, 4) } (0, 5) =
      (Renderer.new (4, 4), { viewport := (0, 0, 4, 4) }) ∧
    (Renderer.resize (Renderer.new (4, 4)) { viewport := (0, 0, 4, 4) } (7, 5)).1.size = (7, 5) ∧
    (Renderer.resize (Renderer.new (4, 4)) { viewport := (0, 0, 4, 4) } (7, 5)).2.viewport =
      (0, 0, 7, 5) := by
  refine ⟨(c8_renderer_resize (Renderer.new (4, 4)) { viewport := (0, 0, 4, 4) } (0, 5)).1
    (Or.inl rfl), ?_⟩
  have h := (c8_renderer_resize (Renderer.new (4, 4)) { viewport := (0, 0, 4, 4) } (7, 5)).2
    (by decide) (by decide)
  exact ⟨h.1, h.2⟩

/-! ### Native object lifecycle for Framebuffer::resize
(src/foxtail/src/rendering/render_pass.rs)

`GlObjects` tracks the live native objects on the GL side together
with the storage size recorded for textures (`tex_image_2d`) and
renderbuffers (`renderbuffer_storage`), and an event trace recording
the order of delete and create calls. Handles are allocated from a
fresh counter. The model assumes `check_framebuffer_status` reports a
complete framebuffer (the code panics otherwise). -/

inductive GlEvent where
  | delFramebuffer (h : Nat)
  | delTexture (h : Nat)
  | delRenderbuffer (h : Nat)
  | newFramebuffer (h : Nat)
  | newTexture (h : Nat) (size : Int × Int)
  | newRenderbuffer (h : Nat) (size : Int × Int)
deriving DecidableEq, Repr

/-- Whether an event is one of the three delete calls. -/
def GlEvent.isDelete : GlEvent → Bool
  | GlEvent.delFramebuffer _ => true
  | GlEvent.delTexture _ => true
  | GlEvent.delRenderbuffer _ => true
  | _ => false

/-- Whether an event is one of the three create calls. -/
def GlEvent.isCreate : GlEvent → Bool
  | GlEvent.newFramebuffer _ => true
  | GlEvent.newTexture _ _ => true
  | GlEvent.newRenderbuffer _ _ => true
  | _ => false

structure GlObjects where
  nextId : Nat
  framebuffers : List Nat
  textures : List (Nat × (Int × Int))
  renderbuffers : List (Nat × (Int × Int))
  trace : List GlEvent
deriving DecidableEq, Repr

/-- `gl.delete_framebuffer`. -/
def GlObjects.deleteFramebuffer (g : GlObjects) (h : Nat) : GlObjects :=
  { g with framebuffers := g.framebuffers.erase h,
           trace := g.trace ++ [GlEvent.delFramebuffer h] }

/-- `gl.delete_texture`. -/
def GlObjects.deleteTexture (g : GlObjects) (h : Nat) : GlObjects :=
  { g with textures := g.textures.filter (fun p => p.1 ≠ h),
           trace := g.trace ++ [GlEvent.delTexture h] }

/-- `gl.delete_renderbuffer`. -/
def GlObjects.deleteRenderbuffer (g : GlObjects) (h : Nat) : GlObjects :=
  { g with renderbuffers := g.renderbuffers.filter (fun p => p.1 ≠ h),
           trace := g.trace ++ [GlEvent.delRenderbuffer h] }

/-- `gl.create_framebuffer`. -/
def GlObjects.createFramebuffer (g : GlObjects) : Nat × GlObjects :=
  (g.nextId,
   { g with nextId := g.nextId + 1,
            framebuffers := g.framebuffers ++ [g.nextId],
            trace := g.trace ++ [GlEvent.newFramebuffer g.nextId] })

/-- `gl.create_texture` followed by `tex_image_2d` allocating storage
of the given size. -/
def GlObjects.createTexture (g : GlObjects) (size : Int × Int) : Nat × GlObjects :=
  (g.nextId,
   { g with nextId := g.nextId + 1,
            textures := g.textures ++ [(g.nextId, size)],
            trace := g.trace ++ [GlEvent.newTexture g.nextId size] })

/-- `gl.create_renderbuffer` followed by `renderbuffer_storage` of the
given size. -/
def GlObjects.createRenderbuffer (g : GlObjects) (size : Int × Int) : Nat × GlObjects :=
  (g.nextId,
   { g with nextId := g.nextId + 1,
            renderbuffers := g.renderbuffers ++ [(g.nextId, size)],
            trace := g.trace ++ [GlEvent.newRenderbuffer g.nextId size] })

/-- `Framebuffer::resize(size)`: deletes the old framebuffer object,
color texture and renderbuffer, then creates a fresh framebuffer, a
color texture of the new size and a depth/stencil renderbuffer of the
new size, and stores the three new handles in the struct. -/
def Framebuffer.resize (fb : Framebuffer) (size : Int × Int) (g : GlObjects) :
    Framebuffer × GlObjects :=
  let g1 := g.deleteFramebuffer fb.fbo
  let g2 := g1.deleteTexture fb.tex
  let g3 := g2.deleteRenderbuffer fb.rbo
  let (fbo, g4) := g3.createFramebuffer
  let (tex, g5) := g4.createTexture size
  let (rbo, g6) := g5.createRenderbuffer size
  ({ fb with fbo := fbo, tex := tex, rbo := rbo }, g6)

/-- Initial GL object state for concrete instances: exactly the
attachments of `framebuffer0`, allocated at size 4x4. -/
def glObjects0 : GlObjects :=
  { nextId := 10, framebuffers := [5], textures := [(6, (4, 4))],
    renderbuffers := [(7, (4, 4))], trace := [] }

/-- C4 counterexample: the Framebuffer struct retains no size
information, so no accessor of the Framebuffer can report the resize
dimensions: resizing the same framebuffer to (3,4) and to (9,9)
produces identical Framebuffer values, hence any purported size
accessor would have to return (3,4) and (9,9) on the same value. -/
theorem c4_resize_counterexample :
    (Framebuffer.resize framebuffer0 (3, 4) glObjects0).1 =
      (Framebuffer.resize framebuffer0 (9, 9) glObjects0).1 ∧
    ¬ ∃ szFn : Framebuffer → Int × Int,
        szFn (Framebuffer.resize framebuffer0 (3, 4) glObjects0).1 = (3, 4) ∧
        szFn (Framebuffer.resize framebuffer0 (9, 9) glObjects0).1 = (9, 9) := by
  have heq : (Framebuffer.resize framebuffer0 (3, 4) glObjects0).1 =
      (Framebuffer.resize framebuffer0 (9, 9) glObjects0).1 := by decide
  refine ⟨heq, ?_⟩
  rintro ⟨szFn, h1, h2⟩
  rw [heq] at h1
  rw [h1] at h2
  exact absurd h2 (by decide)

/-- C4 amended: resize(w,h) destroys the three old native attachments
strictly before creating any of the new ones (the trace appended by the
call is the three deletes of the old handles followed only by create
events), and when the old attachments were the only live objects,
afterwards exactly one set of native attachments is live, allocated at
the new size; the Framebuffer exposes no size accessor (see the
counterexample). -/
theorem c4_resize_lifecycle (fb : Framebuffer) (g : GlObjects) (w h : Int)
    (oldT oldR : Int × Int)
    (hw : 0 < w) (hh : 0 < h)
    (hfb : g.framebuffers = [fb.fbo])
    (htex : g.textures = [(fb.tex, oldT)])
    (hrbo : g.renderbuffers = [(fb.rbo, oldR)]) :
    (Framebuffer.resize fb (w, h) g).2.framebuffers =
      [(Framebuffer.resize fb (w, h) g).1.fbo] ∧
    (Framebuffer.resize fb (w, h) g).2.textures =
      [((Framebuffer.resize fb (w, h) g).1.tex, (w, h))] ∧
    (Framebuffer.resize fb (w, h) g).2.renderbuffers =
      [((Framebuffer.resize fb (w, h) g).1.rbo, (w, h))] ∧
    ∃ creates : List GlEvent,
      (Framebuffer.resize fb (w, h) g).2.trace =
        g.trace ++ [GlEvent.delFramebuffer fb.fbo, GlEvent.delTexture fb.tex,
          GlEvent.delRenderbuffer fb.rbo] ++ creates ∧
      (∀ e ∈ creates, e.isCreate = true) := by
  refine ⟨?_, ?_, ?_, ?_⟩
  · simp [Framebuffer.resize, GlObjects.deleteFramebuffer, GlObjects.deleteTexture,
      GlObjects.deleteRenderbuffer, GlObjects.createFramebuffer, GlObjects.createTexture,
      GlObjects.createRenderbuffer, hfb]
  · simp [Framebuffer.resize, GlObjects.deleteFramebuffer, GlObjects.deleteTexture,
      GlObjects.deleteRenderbuffer, GlObjects.createFramebuffer, GlObjects.createTexture,
      GlObjects.createRenderbuffer, htex]
  · simp [Framebuffer.resize, GlObjects.deleteFramebuffer, GlObjects.deleteTexture,
      GlObjects.deleteRenderbuffer, GlObjects.createFramebuffer, GlObjects.createTexture,
      GlObjects.createRenderbuffer, hrbo]
  · refine ⟨[GlEvent.newFramebuffer g.nextId, GlEvent.newTexture (g.nextId + 1) (w, h),
      GlEvent.newRenderbuffer (g.nextId + 2) (w, h)], ?_, ?_⟩
    · simp [Framebuffer.resize, GlObjects.deleteFramebuffer, GlObjects.deleteTexture,
        GlObjects.deleteRenderbuffer, GlObjects.createFramebuffer, GlObjects.createTexture,
        GlObjects.createRenderbuffer]
    · intro e he
      simp only [List.mem_cons, List.mem_singleton, List.not_mem_nil] at he
      rcases he with h1 | h2 | h3 | h4
      · rw [h1]; rfl
      · rw [h2]; rfl
      · rw [h3]; rfl
      · exact absurd h4 (by simp)

/-- Witness for C4 amended at the concrete framebuffer: one live set of
attachments before, one of size (3,4) after, with deletes preceding the
creates in the trace. -/
theorem c4_resize_lifecycle_witness :
    (Framebuffer.resize framebuffer0 (3, 4) glObjects0).2.framebuffers =
      [(Framebuffer.resize framebuffer0 (3, 4) glObjects0).1.fbo] ∧
    (Framebuffer.resize framebuffer0 (3, 4) glObjects0).2.textures =
      [((Framebuffer.resize framebuffer0 (3, 4) glObjects0).1.tex, (3, 4))] ∧
    (Framebuffer.resize framebuffer0 (3, 4) glObjects0).2.renderbuffers =
      [((Framebuffer.resize framebuffer0 (3, 4) glObjects0).1.rbo, (3, 4))] ∧
    ∃ creates : List GlEvent,
      (Framebuffer.resize framebuffer0 (3, 4) glObjects0).2.trace =
        glObjects0.trace ++ [GlEvent.delFramebuffer framebuffer0.fbo,
          GlEvent.delTexture framebuffer0.tex,
          GlEvent.delRenderbuffer framebuffer0.rbo] ++ creates ∧
      (∀ e ∈ creates, e.isCreate = true) := by
  exact c4_resize_lifecycle framebuffer0 glObjects0 3 4 (4, 4) (4, 4)
    (by decide) (by decide) rfl rfl rfl

/-! ### Texture (src/foxtail/src/rendering/texture.rs)

`TexState` tracks the live native textures with their allocated
storage size; `new_tex` allocates a fresh handle with storage at the
settings' dimensions and never deletes anything. -/

inductive TextureFormat where
  | rFmt
  | rgFmt
  | rgbFmt
  | rgbaFmt
deriving DecidableEq, Repr

inductive TextureFiltering where
  | linear
  | nearest
deriving DecidableEq, Repr

structure TextureSettings where
  width : Nat
  height : Nat
  format : TextureFormat
  filtering : TextureFiltering
  mipmap : Bool
deriving DecidableEq, Repr

structure Texture where
  tex : Nat
  settings : TextureSettings
deriving DecidableEq, Repr

/-- Live native textures on the GL side, with their storage size. -/
structure TexState where
  nextId : Nat
  live : List (Nat × (Nat × Nat))
deriving DecidableEq, Repr

/-- `new_tex(gl, settings, pixels)`: creates a native texture and
allocates storage of `(settings.width, settings.height)` via
`tex_image_2d`. -/
def new_tex (g : TexState) (settings : TextureSettings) : Nat × TexState :=
  (g.nextId,
   { nextId := g.nextId + 1,
     live := g.live ++ [(g.nextId, (settings.width, settings.height))] })

/-- `Texture::new(renderer, settings, pixels)`. -/
def Texture.new (g : TexState) (settings : TextureSettings) : Texture × TexState :=
  let (tex, g2) := new_tex g settings
  ({ tex := tex, settings := settings }, g2)

/-- `Texture::size`. -/
def Texture.size (t : Texture) : Nat × Nat :=
  (t.settings.width, t.settings.height)

/-- `Texture::resize(size, pixels)`: updates the stored settings to the
new dimensions, creates a new native texture via `new_tex` and stores
its handle in the struct; the previous native texture handle is
overwritten without a `delete_texture` call. -/
def Texture.resize (t : Texture) (size : Nat × Nat) (g : TexState) : Texture × TexState :=
  let settings := { t.settings with width := size.1, height := size.2 }
  let (tex, g2) := new_tex g settings
  ({ t with settings := settings, tex := tex }, g2)

/-- `impl Drop for Texture`: deletes the currently stored handle. -/
def Texture.dropTex (t : Texture) (g : TexState) : TexState :=
  { g with live := g.live.filter (fun p => p.1 ≠ t.tex) }

/-- A concrete texture and GL texture state for C7. -/
def texture0 : Texture :=
  { tex := 0,
    settings := { width := 4, height := 4, format := TextureFormat.rgbaFmt,
                  filtering := TextureFiltering.linear, mipmap := false } }

def texState0 : TexState := { nextId := 1, live := [(0, (4, 4))] }

/-- C7 counterexample: resize replaces the struct's handle but never
releases the old native texture: after resizing texture0 the old
storage (0, (4,4)) is still live, and it remains live even after the
destructor of the resized texture runs, so the old storage is leaked,
not released. -/
theorem c7_resize_counterexample :
    (Texture.resize texture0 (8, 8) texState0).1.tex ≠ texture0.tex ∧
    ((0, (4, 4)) ∈ (Texture.resize texture0 (8, 8) texState0).2.live) ∧
    (Texture.dropTex (Texture.resize texture0 (8, 8) texState0).1
      (Texture.resize texture0 (8, 8) texState0).2).live = [(0, (4, 4))] := by
  refine ⟨by decide, by decide, by decide⟩

/-- C7 amended: resize(new_size, pixels) allocates fresh native
storage at the new size, replaces the struct's texture handle with the
new one, and afterwards size() reports new_size; the old native
texture's storage is not released by the call (every previously live
texture stays live). -/
theorem c7_texture_resize (t : Texture) (sz : Nat × Nat) (g : TexState) :
    Texture.size (Texture.resize t sz g).1 = sz ∧
    (Texture.resize t sz g).1.tex = g.nextId ∧
    ((g.nextId, sz) ∈ (Texture.resize t sz g).2.live) ∧
    (∀ p ∈ g.live, p ∈ (Texture.resize t sz g).2.live) := by
  refine ⟨?_, rfl, ?_, ?_⟩
  · unfold Texture.size Texture.resize new_tex
    simp
  · unfold Texture.resize new_tex
    simp
  · intro p hp
    unfold Texture.resize new_tex
    simp [hp]

/-- Witness for C7 amended at texture0: the resized texture reports
(8,8), holds the fresh handle 1, the new storage is live and the old
storage survives the call. -/
theorem c7_texture_resize_witness :
    Texture.size (Texture.resize texture0 (8, 8) texState0).1 = (8, 8) ∧
    (Texture.resize texture0 (8, 8) texState0).1.tex = texState0.nextId ∧
    ((texState0.nextId, (8, 8)) ∈ (Texture.resize texture0 (8, 8) texState0).2.live) ∧
    ((0, (4, 4)) ∈ (Texture.resize texture0 (8, 8) texState0).2.live) := by
  have h := c7_texture_resize texture0 (8, 8) texState0
  exact ⟨h.1, h.2.1, h.2.2.1, h.2.2.2 (0, (4, 4)) (by decide)⟩
